import Mathlib

/-!
Shallow embedding of the dso-vocabulary-replacer program (src/main.py).

The program reads a text file, replaces occurrences of sensitive terms
with replacements drawn from a vocabulary file, and writes the result.
External collaborators (chardet encoding detection, codec decoding, the
Faker name generator) are modelled as function parameters; the file
system is modelled by passing file contents as values and the state of
the output path as an Option String (none = no file at the path).
-/

/-- Membership in the character class stripped by the Python str.strip
method, restricted to the ASCII whitespace characters. -/
def pySpace (c : Char) : Bool :=
  c = ' ' || c = '\t' || c = '\n' || c = '\r' || c = '\x0b' || c = '\x0c'

/-- Model of the Python str.strip method on a list of characters: drop
leading and trailing whitespace. -/
def pyStripL (s : List Char) : List Char :=
  ((s.dropWhile pySpace).reverse.dropWhile pySpace).reverse

/-- Model of the Python str.strip method on strings. -/
def pyStrip (s : String) : String :=
  String.mk (pyStripL s.data)

/-- Model of the Python split on a comma separator: the string is split
at every comma, and the empty string splits to one empty part. -/
def splitCommaL : List Char → List (List Char)
  | [] => [[]]
  | c :: rest =>
    if c = ',' then
      [] :: splitCommaL rest
    else
      match splitCommaL rest with
      | [] => [[c]]
      | p :: ps => (c :: p) :: ps

/-- String form of the comma split used by load_vocabulary. -/
def splitComma (s : String) : List String :=
  (splitCommaL s.data).map String.mk

/-- Fuel-driven scan behind the Python str.replace method for a
non-empty pattern: at each position, if the pattern starts there,
emit the replacement and skip the pattern, else keep the character.
Fuel equal to the length of the scanned list is always sufficient. -/
def replaceFuelL (pat rep : List Char) : Nat → List Char → List Char
  | _, [] => []
  | 0, s => s
  | fuel + 1, c :: rest =>
    if List.isPrefixOf pat (c :: rest) then
      rep ++ replaceFuelL pat rep fuel (List.drop pat.length (c :: rest))
    else
      c :: replaceFuelL pat rep fuel rest

/-- Model of the Python str.replace method on lists of characters,
replacing every non-overlapping occurrence from the left. An empty
pattern inserts the replacement before, between and after all
characters, as in Python. -/
def pyReplaceL (s pat rep : List Char) : List Char :=
  match pat with
  | [] => rep ++ s.foldr (fun c acc => c :: (rep ++ acc)) []
  | _ => replaceFuelL pat rep s.length s

/-- Model of the Python str.replace method on strings. -/
def pyReplace (s pat rep : String) : String :=
  String.mk (pyReplaceL s.data pat.data rep.data)

/-- A vocabulary as built by load_vocabulary: an association list in
Python dict insertion order; the value none models the Python None
used as the randomize marker. -/
abbrev Vocab := List (String × Option String)

/-- Python dict assignment: an existing key keeps its position and gets
the new value, a new key is appended at the end. -/
def dictInsert : Vocab → String → Option String → Vocab
  | [], k, v => [(k, v)]
  | (k0, v0) :: rest, k, v =>
    if k0 = k then (k0, v) :: rest
    else (k0, v0) :: dictInsert rest k v

/-- One iteration of the line loop in load_vocabulary (src/main.py
lines 57 to 69): strip the line, skip it when blank, split on commas,
insert a two-part line as (term, replacement), a one-part line as
(term, none), and skip any other shape while appending the warning
message that the code logs. The accumulator carries the vocabulary
and the warning log. -/
def processLine (acc : Vocab × List String) (rawLine : String) :
    Vocab × List String :=
  let line := pyStrip rawLine
  if line = "" then acc
  else
    match splitComma line with
    | [p0, p1] => (dictInsert acc.1 (pyStrip p0) (some (pyStrip p1)), acc.2)
    | [p0] => (dictInsert acc.1 (pyStrip p0) none, acc.2)
    | _ => (acc.1, acc.2 ++ ["Invalid line in vocabulary file: " ++ line ++ ". Skipping."])

/-- load_vocabulary (src/main.py lines 43 to 76). The file content is
passed as an Option over the list of lines: none models a failed read
(missing file or any other read error), in which case the Python code
catches the exception and returns None. On a successful read the
whole vocabulary is built; malformed lines are skipped with a warning
and never abort the load. -/
def load_vocabulary (content : Option (List String)) :
    Option (Vocab × List String) :=
  content.map (fun lines => lines.foldl processLine ([], []))

/-- The literal-mode loop of replace_terms (src/main.py lines 107 to
108): fold str.replace over the vocabulary items in order. A none
replacement makes the Python call text.replace(term, None) raise a
TypeError, modelled by the none result; the generic except clause of
replace_terms then turns it into exit status 1. -/
def literalLoop : String → Vocab → Option String
  | text, [] => some text
  | text, (t, some r) :: rest => literalLoop (pyReplace text t r) rest
  | _, (_, none) :: _ => none

/-- The randomize-mode loop of replace_terms (src/main.py lines 99 to
104). The Faker generator is modelled by a stream of names indexed by
a counter; each marker entry consumes exactly one fresh name for its
single replace call. An entry with a concrete replacement makes the
code log an error and return exit status 1, modelled by none. The
returned counter is the number of names generated. -/
def randomLoop (fake : Nat → String) :
    String → Vocab → Nat → Option (String × Nat)
  | text, [], i => some (text, i)
  | text, (t, none) :: rest, i =>
      randomLoop fake (pyReplace text t (fake i)) rest (i + 1)
  | _, (_, some _) :: _, _ => none

/-- replace_terms (src/main.py lines 78 to 118). Parameters: detect is
the chardet detector over the raw input bytes; decode is the text
decoding performed by the second open call, receiving the detected
encoding exactly as chardet produced it (none means Python passes
encoding=None and the platform default is used); fake is the Faker
name stream; inputBytes is the raw content of the input file (none =
missing file, the FileNotFoundError path); outSt is the state of the
output path before the run. Returns the state of the output path
after the run and the returned exit status. The output file is opened
with mode w, so it is created or truncated to empty before the text
is decoded and before either substitution loop runs. -/
def replace_terms (detect : List Nat → Option String)
    (decode : Option String → List Nat → Option String)
    (fake : Nat → String) (inputBytes : Option (List Nat))
    (vocab : Vocab) (outSt : Option String) (randomize : Bool) :
    Option String × Nat :=
  match inputBytes with
  | none => (outSt, 1)
  | some raw =>
    let enc := detect raw
    let opened : Option String := some ""
    match decode enc raw with
    | none => (opened, 1)
    | some text =>
      if randomize then
        match randomLoop fake text vocab 0 with
        | none => (opened, 1)
        | some (out, _) => (some out, 0)
      else
        match literalLoop text vocab with
        | none => (opened, 1)
        | some out => (some out, 0)

/-- Result of a whole run of main: the state of the output path, the
process exit code, and the error messages main itself logs. -/
structure MainResult where
  outFile : Option String
  exitCode : Nat
  errLogs : List String

/-- main (src/main.py lines 120 to 143), named mainRun here because the
name main is reserved by Lean: check that the input and the
vocabulary paths exist, exiting with 1 and logging an error when one
is missing; load the vocabulary, exiting with 1 when the load fails;
otherwise exit with the status returned by replace_terms. Error logs
emitted inside the two callees are not tracked here. -/
def mainRun (inputFile vocabFile : String) (inputExists vocabExists : Bool)
    (vocabContent : Option (List String)) (inputBytes : Option (List Nat))
    (detect : List Nat → Option String)
    (decode : Option String → List Nat → Option String)
    (fake : Nat → String) (randomize : Bool) (outSt : Option String) :
    MainResult :=
  if inputExists = false then
    ⟨outSt, 1, ["Input file does not exist: " ++ inputFile]⟩
  else if vocabExists = false then
    ⟨outSt, 1, ["Vocabulary file does not exist: " ++ vocabFile]⟩
  else
    match load_vocabulary vocabContent with
    | none => ⟨outSt, 1, []⟩
    | some (vocab, _) =>
      let r := replace_terms detect decode fake inputBytes vocab outSt randomize
      ⟨r.1, r.2, []⟩

/-- C1: in literal mode, substitution replaces every non-overlapping
occurrence of each sensitive term with its replacement, entry by entry
in vocabulary order: on the document from the spec scenario with the
single entry mapping John Smith to REDACTED, the literal loop and the
whole engine both produce the redacted document with exit status 0. -/
theorem c1_literal_scenario :
    literalLoop "Hello, John Smith. John Smith said hi."
        [("John Smith", some "REDACTED")]
      = some "Hello, REDACTED. REDACTED said hi."
  ∧ replace_terms (fun _ => some "ascii")
      (fun _ _ => some "Hello, John Smith. John Smith said hi.")
      (fun _ => "") (some [72]) [("John Smith", some "REDACTED")] none false
      = (some "Hello, REDACTED. REDACTED said hi.", 0) := by
  constructor
  · decide
  · decide

/-- Shadow of the randomize loop over the bare term list, pairing the
term at position k with the single generated name of index i + k. -/
def applyFakes (fake : Nat → String) :
    String → List String → Nat → String
  | text, [], _ => text
  | text, t :: rest, i =>
      applyFakes fake (pyReplace text t (fake i)) rest (i + 1)

/-- C2: in randomized mode, every marker entry consumes exactly one
generated name, and every occurrence of that term is replaced by that
single name. The general part: on a vocabulary of bare terms the loop
succeeds, pairs the term at position k with the one name of index
i + k used in its single replace call, and advances the generation
counter by exactly the number of terms. The concrete part: a document
holding the term Bob twice receives the same first generated name at
both occurrences, and the second term consumes the second name. -/
theorem c2_random_once_per_term :
    (∀ (fake : Nat → String) (text : String) (ts : List String) (i : Nat),
      randomLoop fake text (ts.map (fun t => (t, none))) i
        = some (applyFakes fake text ts i, i + ts.length))
  ∧ replace_terms (fun _ => some "utf-8")
      (fun _ _ => some "Bob met Bob and Alice")
      (fun i => if i = 0 then "Dana Fox" else "Gail Hart")
      (some [66]) [("Bob", none), ("Alice", none)] none true
      = (some "Dana Fox met Dana Fox and Gail Hart", 0) := by
  constructor
  · intro fake text ts i
    induction ts generalizing text i with
    | nil => simp [randomLoop, applyFakes]
    | cons t rest ih =>
        simp only [List.map_cons, randomLoop, applyFakes, ih,
          List.length_cons, Option.some.injEq, Prod.mk.injEq, true_and]
        omega
  · decide

/-- C9: in literal mode with an empty vocabulary the engine is the
identity on the document: whenever the input bytes decode to some
text, the run writes exactly that text and returns status 0. -/
theorem c9_empty_vocab_identity (detect : List Nat → Option String)
    (decode : Option String → List Nat → Option String)
    (fake : Nat → String) (raw : List Nat) (text : String)
    (outSt : Option String)
    (h : decode (detect raw) raw = some text) :
    replace_terms detect decode fake (some raw) [] outSt false
      = (some text, 0) := by
  simp [replace_terms, h, literalLoop]

/-- Witness for C9 at a concrete decoder and document. -/
theorem c9_empty_vocab_identity_witness :
    replace_terms (fun _ => some "utf-8") (fun _ _ => some "hello there")
      (fun _ => "") (some [104]) [] none false = (some "hello there", 0) :=
  c9_empty_vocab_identity _ _ _ _ _ _ rfl

/-- C10: load_vocabulary is total over its error channel: it returns
none exactly when reading the file failed, and on any readable content
it returns the fully built mapping, never a propagated exception and
never a partial mapping standing for a failure. -/
theorem c10_load_total (content : Option (List String)) :
    load_vocabulary content = none ↔ content = none := by
  cases content <;> simp [load_vocabulary]

/-- Helper: in randomize mode, a vocabulary holding any entry with a
concrete replacement makes the loop abort with the error result. -/
theorem randomLoop_eq_none_of_concrete (fake : Nat → String)
    (vocab : Vocab) (h : ∃ p ∈ vocab, ∃ r, p.2 = some r) :
    ∀ (text : String) (i : Nat), randomLoop fake text vocab i = none := by
  induction vocab with
  | nil => rcases h with ⟨p, hp, _⟩; cases hp
  | cons q rest ih =>
      intro text i
      rcases q with ⟨t, _ | r⟩
      · rcases h with ⟨p, hp, r, hr⟩
        rcases List.mem_cons.mp hp with hq | hmem
        · rw [hq] at hr; cases hr
        · show randomLoop fake (pyReplace text t (fake i)) rest (i + 1) = none
          exact ih ⟨p, hmem, r, hr⟩ (pyReplace text t (fake i)) (i + 1)
      · rfl

/-- Helper: in literal mode, a vocabulary holding any marker entry
makes the loop abort with the TypeError result. -/
theorem literalLoop_eq_none_of_marker (vocab : Vocab)
    (h : ∃ p ∈ vocab, p.2 = none) :
    ∀ text : String, literalLoop text vocab = none := by
  induction vocab with
  | nil => rcases h with ⟨p, hp, _⟩; cases hp
  | cons q rest ih =>
      intro text
      rcases q with ⟨t, _ | r⟩
      · rfl
      · rcases h with ⟨p, hp, hv⟩
        rcases List.mem_cons.mp hp with hq | hmem
        · rw [hq] at hv; cases hv
        · exact ih ⟨p, hmem, hv⟩ (pyReplace text t r)

/-- C3 counterexample: a randomized run over a vocabulary with one
concrete replacement returns exit status 1, yet the output path ends
holding the empty file: starting from a pre-existing file with content
old, that file is truncated, and starting from no file at the path, a
file is created. This refutes the claim that no output file is
written at all on a configuration error. -/
theorem c3_counterexample :
    replace_terms (fun _ => some "utf-8") (fun _ _ => some "doc")
        (fun _ => "Dana Fox") (some [97]) [("a", some "b")]
        (some "old") true = (some "", 1)
  ∧ replace_terms (fun _ => some "utf-8") (fun _ _ => some "doc")
        (fun _ => "Dana Fox") (some [97]) [("a", some "b")]
        none true = (some "", 1) := by
  constructor
  · decide
  · decide

/-- C3 amended: in randomized mode, if any vocabulary entry carries a
concrete replacement the run fails with exit status 1, but the output
file has already been opened for writing, so whatever was at the
output path is replaced by an empty file; no substituted content is
written to it. -/
theorem c3_amended (detect : List Nat → Option String)
    (decode : Option String → List Nat → Option String)
    (fake : Nat → String) (raw : List Nat) (vocab : Vocab)
    (outSt : Option String)
    (h : ∃ p ∈ vocab, ∃ r, p.2 = some r) :
    replace_terms detect decode fake (some raw) vocab outSt true
      = (some "", 1) := by
  cases hdec : decode (detect raw) raw with
  | none => simp [replace_terms, hdec]
  | some text =>
      simp [replace_terms, hdec,
        randomLoop_eq_none_of_concrete fake vocab h text 0]

/-- Witness for C3 amended at a concrete vocabulary and stubs. -/
theorem c3_amended_witness :
    replace_terms (fun _ => some "e") (fun _ _ => some "d")
      (fun _ => "n") (some [97]) [("a", some "b")] none true
      = (some "", 1) :=
  c3_amended _ _ _ _ _ _ ⟨("a", some "b"), by decide, "b", rfl⟩

/-- C4 counterexample: in literal mode, a vocabulary whose first entry
is a marker entry and whose second entry maps b to c, run on the
document b, yields exit status 1 with the output path holding the
empty file, not the successful run writing c that the claim promises:
the marker entry aborts the run instead of being skipped, and the
remaining entry is not applied. -/
theorem c4_counterexample :
    replace_terms (fun _ => some "utf-8") (fun _ _ => some "b")
        (fun _ => "n") (some [98]) [("a", none), ("b", some "c")]
        none false = (some "", 1)
  ∧ replace_terms (fun _ => some "utf-8") (fun _ _ => some "b")
        (fun _ => "n") (some [98]) [("a", none), ("b", some "c")]
        none false ≠ (some "c", 0) := by
  constructor
  · decide
  · decide

/-- C4 amended: in literal mode, a vocabulary entry whose replacement
is the marker makes the replace call fail (the Python TypeError from
passing None as replacement), so the run aborts with exit status 1,
the remaining entries are not applied, and the output path is left
holding the empty file the open call created. -/
theorem c4_amended (detect : List Nat → Option String)
    (decode : Option String → List Nat → Option String)
    (fake : Nat → String) (raw : List Nat) (vocab : Vocab)
    (outSt : Option String)
    (h : ∃ p ∈ vocab, p.2 = none) :
    replace_terms detect decode fake (some raw) vocab outSt false
      = (some "", 1) := by
  cases hdec : decode (detect raw) raw with
  | none => simp [replace_terms, hdec]
  | some text =>
      simp [replace_terms, hdec,
        literalLoop_eq_none_of_marker vocab h text]

/-- Witness for C4 amended at a concrete vocabulary and stubs. -/
theorem c4_amended_witness :
    replace_terms (fun _ => some "e") (fun _ _ => some "d")
      (fun _ => "n") (some [97]) [("a", none)] none false
      = (some "", 1) :=
  c4_amended _ _ _ _ _ _ ⟨("a", none), by decide, rfl⟩

/-- C5 counterexample: on the line a,b,c the loader does not split on
the first comma: the returned vocabulary is empty with a warning
logged, and in particular it is not the mapping of a to b,c that the
first-comma reading of the claim asserts. -/
theorem c5_counterexample :
    load_vocabulary (some ["a,b,c"])
      = some ([], ["Invalid line in vocabulary file: a,b,c. Skipping."])
  ∧ load_vocabulary (some ["a,b,c"]) ≠ some ([("a", some "b,c")], []) := by
  constructor
  · decide
  · decide

/-- C5 amended: the loader splits each non-blank line on every comma;
a line with three or more comma-separated parts is skipped, leaving
the vocabulary unchanged and appending the logged warning, and the
rest of the file still loads, as the concrete two-line file shows. -/
theorem c5_amended :
    (∀ (acc : Vocab × List String) (line : String),
      pyStrip line ≠ "" → 3 ≤ (splitComma (pyStrip line)).length →
      processLine acc line
        = (acc.1, acc.2
            ++ ["Invalid line in vocabulary file: " ++ pyStrip line ++ ". Skipping."]))
  ∧ load_vocabulary (some ["a,b,c", "x,y"])
      = some ([("x", some "y")],
          ["Invalid line in vocabulary file: a,b,c. Skipping."]) := by
  constructor
  · intro acc line h1 h2
    rcases hsp : splitComma (pyStrip line) with _ | ⟨p0, tl⟩
    · rw [hsp] at h2; simp at h2
    · rcases tl with _ | ⟨p1, tl2⟩
      · rw [hsp] at h2; simp at h2
      · rcases tl2 with _ | ⟨p2, tl3⟩
        · rw [hsp] at h2; simp at h2
        · simp [processLine, h1, hsp]
  · decide

/-- Witness for the general part of C5 amended on the line a,b,c. -/
theorem c5_amended_witness :
    processLine ([], []) "a,b,c"
      = ([], ["Invalid line in vocabulary file: a,b,c. Skipping."]) := by
  have h := c5_amended.1 ([], []) "a,b,c" (by decide) (by decide)
  exact h.trans (by decide)

/-- C6 counterexample: the vocabulary file whose single line is a
comma followed by x loads successfully and its returned mapping holds
an entry whose sensitive term is the empty string, refuting the claim
that every key of a loaded vocabulary is non-empty. -/
theorem c6_counterexample :
    ∃ v w, load_vocabulary (some [",x"]) = some (v, w)
      ∧ ("", some "x") ∈ v :=
  ⟨[("", some "x")], [], by decide, by decide⟩

/-- Decidable check that the first comma-separated field of a line is
blank after stripping; such a line is the one way an empty sensitive
term enters the vocabulary. -/
def firstFieldBlank (line : String) : Bool :=
  match splitComma (pyStrip line) with
  | p0 :: _ => pyStrip p0 = ""
  | [] => false

/-- Helper: an entry of a dict after an assignment either has the
assigned key or was already present. -/
theorem mem_dictInsert (d : Vocab) (k : String) (v : Option String)
    (p : String × Option String) (hp : p ∈ dictInsert d k v) :
    p.1 = k ∨ p ∈ d := by
  induction d with
  | nil =>
      simp [dictInsert] at hp
      exact Or.inl (by rw [hp])
  | cons q rest ih =>
      rcases q with ⟨k0, v0⟩
      by_cases hk : k0 = k
      · rw [dictInsert, if_pos hk] at hp
        rcases List.mem_cons.mp hp with hq | hmem
        · exact Or.inl (by rw [hq, ← hk])
        · exact Or.inr (List.mem_cons_of_mem _ hmem)
      · rw [dictInsert, if_neg hk] at hp
        rcases List.mem_cons.mp hp with hq | hmem
        · exact Or.inr (by rw [hq]; exact List.mem_cons_self _ _)
        · rcases ih hmem with h1 | h2
          · exact Or.inl h1
          · exact Or.inr (List.mem_cons_of_mem _ h2)

/-- Helper: folding the line loop over lines whose first fields are
never blank preserves the invariant that no key is empty. -/
theorem foldl_keys_not_empty (lines : List String)
    (hla : ∀ line ∈ lines, firstFieldBlank line = false) :
    ∀ acc : Vocab × List String, (∀ p ∈ acc.1, p.1 ≠ "") →
      ∀ p ∈ (lines.foldl processLine acc).1, p.1 ≠ "" := by
  induction lines with
  | nil => intro acc hacc p hp; exact hacc p hp
  | cons line rest ih =>
      intro acc hacc
      rw [List.foldl_cons]
      apply ih (fun l hl => hla l (List.mem_cons_of_mem _ hl))
      intro p hp
      have hline := hla line (List.mem_cons_self _ _)
      unfold firstFieldBlank at hline
      by_cases hb : pyStrip line = ""
      · simp [processLine, hb] at hp
        exact hacc p hp
      · rcases hsp : splitComma (pyStrip line) with _ | ⟨p0, tl⟩
        · simp [processLine, hb, hsp] at hp
          exact hacc p hp
        · rw [hsp] at hline
          simp only [decide_eq_false_iff_not] at hline
          have hp0 : pyStrip p0 ≠ "" := hline
          rcases tl with _ | ⟨p1, tl2⟩
          · simp [processLine, hb, hsp] at hp
            rcases mem_dictInsert acc.1 (pyStrip p0) none p hp with h1 | h2
            · rw [h1]; exact hp0
            · exact hacc p h2
          · rcases tl2 with _ | ⟨p2, tl3⟩
            · simp [processLine, hb, hsp] at hp
              rcases mem_dictInsert acc.1 (pyStrip p0) (some (pyStrip p1)) p hp
                with h1 | h2
              · rw [h1]; exact hp0
              · exact hacc p h2
            · simp [processLine, hb, hsp] at hp
              exact hacc p hp

/-- C6 amended: a loaded vocabulary key is always the stripped first
comma-separated field of some non-blank line, so it can be the empty
string (for example from the line that is a comma followed by x); when
no line of the file has a blank first field, every key of the loaded
vocabulary is a non-empty string. -/
theorem c6_amended (lines : List String)
    (h : ∀ line ∈ lines, firstFieldBlank line = false) :
    ∀ v w, load_vocabulary (some lines) = some (v, w) →
      ∀ p ∈ v, p.1 ≠ "" := by
  intro v w hl p hp
  have hfold : lines.foldl processLine ([], []) = (v, w) := by
    simpa [load_vocabulary] using hl
  apply foldl_keys_not_empty lines h ([], []) (by simp) p
  rw [hfold]
  exact hp

/-- Witness for C6 amended on the one-line file a,b. -/
theorem c6_amended_witness :
    (("a", (some "b" : Option String)) : String × Option String).1 ≠ "" :=
  c6_amended ["a,b"] (by decide) [("a", some "b")] [] (by decide)
    ("a", some "b") (by decide)

/-- C7 counterexample: when detection yields no usable encoding the
engine does not fail: with the detector returning none and the
default decoding succeeding, the run proceeds, writes the decoded
text and returns status 0, refuting the claim that this situation is
an EncodingError with a non-zero result. -/
theorem c7_counterexample :
    replace_terms (fun _ => none) (fun _ _ => some "hello")
      (fun _ => "n") (some [104, 105]) [] none false
      = (some "hello", 0) := by
  decide

/-- C7 amended: when detection yields no usable encoding, the code
passes the absent encoding straight to the open call, so the platform
default decoding is used; whenever that fallback decoding succeeds
and the literal pass succeeds, the run completes with status 0, and a
decoding failure is only the generic error path with status 1, never
a distinguishable EncodingError. -/
theorem c7_amended (detect : List Nat → Option String)
    (decode : Option String → List Nat → Option String)
    (fake : Nat → String) (raw : List Nat) (vocab : Vocab)
    (outSt : Option String) (text out : String)
    (hdet : detect raw = none) (hdec : decode none raw = some text)
    (hlit : literalLoop text vocab = some out) :
    replace_terms detect decode fake (some raw) vocab outSt false
      = (some out, 0) := by
  simp [replace_terms, hdet, hdec, hlit]

/-- Witness for C7 amended at a concrete detector and decoder. -/
theorem c7_amended_witness :
    replace_terms (fun _ => none) (fun _ _ => some "hi")
      (fun _ => "n") (some [104]) [] none false = (some "hi", 0) :=
  c7_amended _ _ _ _ _ _ "hi" "hi" rfl rfl rfl

/-- Helper: replace_terms only ever returns the exit statuses 0 and
1, mirroring the return statements of src/main.py lines 104 to 118. -/
theorem replace_terms_code (detect : List Nat → Option String)
    (decode : Option String → List Nat → Option String)
    (fake : Nat → String) (inputBytes : Option (List Nat))
    (vocab : Vocab) (outSt : Option String) (randomize : Bool) :
    (replace_terms detect decode fake inputBytes vocab outSt randomize).2 = 0
  ∨ (replace_terms detect decode fake inputBytes vocab outSt randomize).2 = 1 := by
  rcases inputBytes with _ | raw
  · right; rfl
  · rcases hdec : decode (detect raw) raw with _ | text
    · right; simp [replace_terms, hdec]
    · cases randomize
      · rcases hlit : literalLoop text vocab with _ | out
        · right; simp [replace_terms, hdec, hlit]
        · left; simp [replace_terms, hdec, hlit]
      · rcases hr : randomLoop fake text vocab 0 with _ | ⟨out, j⟩
        · right; simp [replace_terms, hdec, hr]
        · left; simp [replace_terms, hdec, hr]

/-- C8: the process exit code is always 0 or 1; a missing input file
yields exit code 1 together with the logged message, and the exit
code is 0 exactly when the input and vocabulary files exist, the
vocabulary loads, and the substitution engine itself succeeds. -/
theorem c8_exit_codes (inputFile vocabFile : String)
    (inputExists vocabExists : Bool) (vocabContent : Option (List String))
    (inputBytes : Option (List Nat)) (detect : List Nat → Option String)
    (decode : Option String → List Nat → Option String)
    (fake : Nat → String) (randomize : Bool) (outSt : Option String) :
    ((mainRun inputFile vocabFile inputExists vocabExists vocabContent
          inputBytes detect decode fake randomize outSt).exitCode = 0
      ∨ (mainRun inputFile vocabFile inputExists vocabExists vocabContent
          inputBytes detect decode fake randomize outSt).exitCode = 1)
  ∧ (inputExists = false →
      (mainRun inputFile vocabFile inputExists vocabExists vocabContent
          inputBytes detect decode fake randomize outSt).exitCode = 1
      ∧ ("Input file does not exist: " ++ inputFile)
          ∈ (mainRun inputFile vocabFile inputExists vocabExists vocabContent
              inputBytes detect decode fake randomize outSt).errLogs)
  ∧ ((mainRun inputFile vocabFile inputExists vocabExists vocabContent
          inputBytes detect decode fake randomize outSt).exitCode = 0 ↔
      inputExists = true ∧ vocabExists = true
      ∧ ∃ v w, load_vocabulary vocabContent = some (v, w)
          ∧ (replace_terms detect decode fake inputBytes v outSt
              randomize).2 = 0) := by
  refine ⟨?_, ?_, ?_⟩
  · cases inputExists
    · right; simp [mainRun]
    · cases vocabExists
      · right; simp [mainRun]
      · rcases hl : load_vocabulary vocabContent with _ | ⟨v, w⟩
        · right; simp [mainRun, hl]
        · have hc := replace_terms_code detect decode fake inputBytes v
            outSt randomize
          simpa [mainRun, hl] using hc
  · intro hin
    subst hin
    exact ⟨by simp [mainRun], by simp [mainRun]⟩
  · cases inputExists
    · simp [mainRun]
    · cases vocabExists
      · simp [mainRun]
      · rcases hl : load_vocabulary vocabContent with _ | ⟨v, w⟩
        · simp [mainRun, hl]
        · simp [mainRun, hl]

/-- Witness for C8 at a run whose input file is missing. -/
theorem c8_exit_codes_witness :
    (mainRun "in.txt" "v.txt" false true none none (fun _ => none)
        (fun _ _ => none) (fun _ => "") false none).exitCode = 1
  ∧ ("Input file does not exist: " ++ "in.txt")
      ∈ (mainRun "in.txt" "v.txt" false true none none (fun _ => none)
          (fun _ _ => none) (fun _ => "") false none).errLogs :=
  (c8_exit_codes "in.txt" "v.txt" false true none none _ _ _ false none).2.1 rfl
